import Mathlib

/-!
Verification of `src/model/train-model.py` (IMDB sentiment-classifier training
pipeline). The script's pure data transformations and control decisions are
shallowly embedded below: the sequence encoder (`pad_sequences` with
`padding='post'`, `truncating='post'`), the vocabulary/metadata export, the
`ReduceLROnPlateau` learning-rate controller, the fixed-epoch training loop,
and the sequential persistence pipeline of the exporter.
-/

namespace SentimentAnalysis

/-! ## Hyperparameters (train-model.py lines 15-17, 57-58) -/

def NUM_WORDS : Nat := 20000

def MAX_LEN : Nat := 200

def EMBED_DIM : Nat := 128

def EPOCHS : Nat := 15

def BATCH : Nat := 64

/-! ## Sequence encoder -/

/-- Embedding of `pad_sequences(xs, maxlen=MAX_LEN, padding='post', truncating='post')`
(train-model.py lines 27-28), applied to one sequence: a sequence longer than
`maxlen` keeps its first `maxlen` tokens (truncating='post' drops the tail);
a shorter one is extended at the end with the padding value 0 (padding='post',
Keras default `value=0`). -/
def pad_sequences (s : List Nat) (maxlen : Nat) : List Nat :=
  if maxlen < s.length then s.take maxlen
  else s ++ List.replicate (maxlen - s.length) 0

/-! ## Vocabulary and metadata export (train-model.py lines 103-117) -/

/-- Embedding of line 104: `top_words = {word: idx for word, idx in
word_index.items() if idx < NUM_WORDS}` — the mapping written to `vocab.json`.
The word index is the raw association list returned by `imdb.get_word_index()`
(word to 1-based frequency rank, not shifted by `index_from`). -/
def top_words (word_index : List (String × Nat)) : List (String × Nat) :=
  word_index.filter (fun p => decide (p.2 < NUM_WORDS))

/-- The flat record written to `metadata.json` (train-model.py lines 108-115):
its fields are exactly the six keys of the `metadata` dict literal. -/
structure MetadataBundle where
  num_words : Nat
  max_len : Nat
  index_from : Nat
  pad_id : Nat
  start_id : Nat
  oov_id : Nat
deriving DecidableEq, Repr

/-- Embedding of the `metadata` dict literal (train-model.py lines 108-115). -/
def metadata : MetadataBundle :=
  { num_words := NUM_WORDS
    max_len := MAX_LEN
    index_from := 3
    pad_id := 0
    start_id := 1
    oov_id := 2 }

/-! ## ReduceLROnPlateau learning-rate controller (train-model.py lines 60-65)

The callback is constructed with `monitor='val_loss'`, `factor=0.5`,
`patience=2`, `min_lr=0.0001`; Keras defaults supply `min_delta=1e-4`,
`cooldown=0`, and mode `min` (auto-resolved from `val_loss`). Its
`on_epoch_end` behaviour: if the monitored value improves on the best seen
(strictly below `best - min_delta`), record it and reset the wait counter;
otherwise increment the wait counter, and once it reaches `patience`, multiply
the learning rate by `factor` (clamped below by `min_lr`, and only touched at
all while it is still above `min_lr`) and reset the wait counter. -/

structure ReduceLROnPlateauConfig where
  factor : ℚ
  patience : Nat
  min_lr : ℚ
  min_delta : ℚ
deriving Repr

/-- Embedding of the `lr_scheduler` constructed at train-model.py lines 60-65
(`min_delta` is the Keras default 1e-4). -/
def lr_scheduler : ReduceLROnPlateauConfig :=
  { factor := 1/2, patience := 2, min_lr := 1/10000, min_delta := 1/10000 }

/-- Mutable state of the callback across epochs: current learning rate of the
optimizer, best validation loss seen so far (`none` plays the role of the
initial `np.inf`), and the non-improvement wait counter. -/
structure PlateauState where
  lr : ℚ
  best : Option ℚ
  wait : Nat
deriving DecidableEq, Repr

/-- State at the start of training: `legacy.Adam(learning_rate=0.001)`
(train-model.py line 49), no best value recorded, wait counter 0. -/
def initPlateau : PlateauState := { lr := 1/1000, best := none, wait := 0 }

/-- Improvement test of the callback in `min` mode:
`current < best - min_delta`, with the initial best of infinity always beaten. -/
def plateauImproved (cfg : ReduceLROnPlateauConfig) (best : Option ℚ)
    (current : ℚ) : Bool :=
  match best with
  | none => true
  | some b => decide (current < b - cfg.min_delta)

/-- One `on_epoch_end` invocation of `ReduceLROnPlateau` (cooldown 0), fed the
validation loss of the finished epoch. -/
def plateauStep (cfg : ReduceLROnPlateauConfig) (st : PlateauState)
    (current : ℚ) : PlateauState :=
  if plateauImproved cfg st.best current then
    { st with best := some current, wait := 0 }
  else if cfg.patience ≤ st.wait + 1 then
    if cfg.min_lr < st.lr then
      { st with lr := max (st.lr * cfg.factor) cfg.min_lr, wait := 0 }
    else { st with wait := st.wait + 1 }
  else { st with wait := st.wait + 1 }

/-- States after each successive epoch of a run that observes the given
validation-loss sequence, starting from `st`. -/
def runStates (cfg : ReduceLROnPlateauConfig) (st : PlateauState) :
    List ℚ → List PlateauState
  | [] => []
  | c :: cs => plateauStep cfg st c :: runStates cfg (plateauStep cfg st c) cs

/-! ## Training loop (train-model.py lines 68-75) -/

/-- The two callback classes imported at line 9; only one is wired into the run. -/
inductive KerasCallback
  | reduceLROnPlateau
  | earlyStopping
deriving DecidableEq

/-- The `callbacks=[lr_scheduler]` argument of `model.fit` (line 73). -/
def callbacks : List KerasCallback := [KerasCallback.reduceLROnPlateau]

/-- The epoch loop of `model.fit`: runs up to `budget` epochs, breaking early
only when an early-stopping callback is present and its stop condition `stop`
(abstracted: a predicate on the number of completed epochs) fires. Returns the
number of epochs actually executed. -/
def fitLoop (cbs : List KerasCallback) (stop : Nat → Bool) :
    Nat → Nat → Nat
  | 0, done => done
  | n + 1, done =>
    if cbs.contains KerasCallback.earlyStopping && stop done then done
    else fitLoop cbs stop n (done + 1)

/-- Number of epochs executed by `model.fit(..., epochs=EPOCHS,
callbacks=[lr_scheduler], ...)` (lines 68-75), for any would-be stopping
condition `stop`. -/
def epochsRun (stop : Nat → Bool) : Nat := fitLoop callbacks stop EPOCHS 0

/-! ## Artifact exporter (train-model.py lines 84-117) -/

/-- The file-system paths the exporter writes (lines 84, 94, 105, 116). -/
inductive ArtifactPath
  | sentiment_model_h5
  | tfjs_out
  | vocab_json
  | metadata_json
deriving DecidableEq

/-- Modelled from the spec: `model.save(keras_out)` persists the full
architecture and weights of the model to the checkpoint file; the serializer
itself is an external library treated as a black box whose contract ("a
persisted snapshot of model architecture and weights", reloadable) the spec
states. The store is an association list from path to saved model value. -/
def model_save {α : Type} (fs : List (ArtifactPath × α)) (p : ArtifactPath)
    (m : α) : List (ArtifactPath × α) :=
  (p, m) :: fs

/-- Modelled from the spec: `tf.keras.models.load_model(path)` reads back the
model saved at `path` ("reloaded byte-identical by the exporter prior to format
conversion"); fails (`none`) if nothing was saved there. -/
def load_model {α : Type} (fs : List (ArtifactPath × α)) (p : ArtifactPath) :
    Option α :=
  (fs.find? (fun q => decide (q.1 = p))).map (fun q => q.2)

/-- The model value bound by line 88,
`model = tf.keras.models.load_model("sentiment_model.h5")`, after line 85 saved
the trained model `m`. -/
def reloadedModel {α : Type} (m : α) : Option α :=
  load_model (model_save [] ArtifactPath.sentiment_model_h5 m)
    ArtifactPath.sentiment_model_h5

/-- The model passed to `tfjs.converters.save_keras_model(model, tfjs_out)` at
line 96: the `model` name was rebound at line 88, so the converter receives the
reloaded model, not the pre-save one. -/
def tfjsExportInput {α : Type} (m : α) : Option α := reloadedModel m

/-- The five persistence steps of section 4-6 of the script, in source order. -/
inductive ExportStep
  | saveCheckpoint
  | reloadCheckpoint
  | convertTfjs
  | writeVocab
  | writeMetadata
deriving DecidableEq, Repr

/-- The order the script executes the persistence steps in (lines 85, 88, 96,
105-106, 116-117): statements of a straight-line Python script run top to
bottom. -/
def exportOrder : List ExportStep :=
  [ExportStep.saveCheckpoint, ExportStep.reloadCheckpoint,
   ExportStep.convertTfjs, ExportStep.writeVocab, ExportStep.writeMetadata]

/-- Executes the persistence steps in order; an uncaught exception at a step
(`fails s = true`) aborts the script, so no later step runs. Returns the list
of steps that completed. -/
def runExport (fails : ExportStep → Bool) : List ExportStep → List ExportStep
  | [] => []
  | s :: rest => if fails s then [] else s :: runExport fails rest

/-- The steps that complete in a run of the export section where exactly the
steps with `fails s = true` raise. -/
def completedSteps (fails : ExportStep → Bool) : List ExportStep :=
  runExport fails exportOrder

/-! ## Helper lemmas -/

theorem pad_sequences_length (s : List Nat) (L : Nat) :
    (pad_sequences s L).length = L := by
  unfold pad_sequences
  split
  · simp only [List.length_take]
    omega
  · simp only [List.length_append, List.length_replicate]
    omega

theorem plateauStep_lr_floor (cfg : ReduceLROnPlateauConfig)
    (st : PlateauState) (c : ℚ) (h : cfg.min_lr ≤ st.lr) :
    cfg.min_lr ≤ (plateauStep cfg st c).lr := by
  unfold plateauStep
  split
  · exact h
  · split
    · split
      · exact le_max_right _ _
      · exact h
    · exact h

theorem runStates_lr_floor (cfg : ReduceLROnPlateauConfig) (losses : List ℚ) :
    ∀ st : PlateauState, cfg.min_lr ≤ st.lr →
      ∀ st2 ∈ runStates cfg st losses, cfg.min_lr ≤ st2.lr := by
  induction losses with
  | nil => intro st _ st2 h2; simp [runStates] at h2
  | cons c cs ih =>
    intro st h st2 h2
    simp only [runStates, List.mem_cons] at h2
    rcases h2 with h2 | h2
    · rw [h2]; exact plateauStep_lr_floor cfg st c h
    · exact ih (plateauStep cfg st c) (plateauStep_lr_floor cfg st c h) st2 h2

theorem fitLoop_no_early_stop (stop : Nat → Bool) :
    ∀ n d : Nat, fitLoop callbacks stop n d = d + n := by
  intro n
  induction n with
  | zero => intro d; simp [fitLoop]
  | succ m ih =>
    intro d
    unfold fitLoop
    have hc : callbacks.contains KerasCallback.earlyStopping = false := by
      decide
    rw [hc, Bool.false_and, if_neg Bool.false_ne_true, ih]
    omega

theorem pad_sequences_take_pad (s : List Nat) (L : Nat) :
    pad_sequences s L = s.take L ++ List.replicate (L - s.length) 0 := by
  unfold pad_sequences
  split
  · rename_i h
    have : L - s.length = 0 := by omega
    simp [this]
  · rename_i h
    have : s.take L = s := List.take_of_length_le (by omega)
    rw [this]

/-! ## Claim theorems -/

/-- Claim C1 (code bug): the claim states that reserved ids 0, 1 and 2 never
appear as exported token ids in `vocab.json`, but line 104 filters the raw
`imdb.get_word_index()` mapping — whose ids are 1-based frequency ranks,
unshifted by `index_from = 3` — only by `idx < NUM_WORDS`. On the actual IMDB
word index, which contains ("the", 1) and ("and", 2), the reserved ids 1 and 2
are therefore exported. -/
theorem vocab_export_contains_reserved_ids :
    ("the", 1) ∈ top_words [("the", 1), ("and", 2), ("a", 3)] ∧
    ("and", 2) ∈ top_words [("the", 1), ("and", 2), ("a", 3)] := by
  constructor <;> decide

/-- Claim C2: the emitted `metadata.json` is exactly the flat record with
`num_words = 20000`, `max_len = 200`, `index_from = 3`, `pad_id = 0`,
`start_id = 1`, `oov_id = 2`, and its `pad_id` is the very value the sequence
encoder appends as padding. -/
theorem metadata_bundle_exact :
    metadata = { num_words := 20000, max_len := 200, index_from := 3,
                 pad_id := 0, start_id := 1, oov_id := 2 } ∧
    ∀ (s : List Nat) (L : Nat),
      pad_sequences s L =
        s.take L ++ List.replicate (L - s.length) metadata.pad_id := by
  constructor
  · rfl
  · intro s L
    exact pad_sequences_take_pad s L

/-- Claim C3: on the validation-loss sequence [0.5, 0.49, 0.49, 0.49], the
learning-rate controller (factor 0.5, patience 2) leaves the learning rate at
0.001 after epochs 0, 1 and 2 and halves it to 0.0005 at epoch 3 — and epoch 3
is indeed the epoch at which the non-improvement wait counter first reaches the
patience of 2 consecutive epochs (the wait counter after epochs 0, 1, 2 is
0, 0, 1). -/
theorem lr_halves_at_epoch_three :
    ((runStates lr_scheduler initPlateau
        [1/2, 49/100, 49/100, 49/100]).map (fun st => st.lr)) =
      [1/1000, 1/1000, 1/1000, 1/2000] ∧
    ((runStates lr_scheduler initPlateau
        [1/2, 49/100, 49/100]).map (fun st => st.wait)) = [0, 0, 1] := by
  constructor <;>
    norm_num [runStates, plateauStep, plateauImproved, lr_scheduler,
      initPlateau, max_def]

/-- Claim C4: a sequence longer than the configured length encodes to exactly
its first `L` elements — no trailing element survives. -/
theorem encode_truncates_post (s : List Nat) (L : Nat) (h : L < s.length) :
    pad_sequences s L = s.take L := by
  unfold pad_sequences
  rw [if_pos h]

/-- Witness for C4: the end-to-end scenario [4,5,6,7,8,9] with max_len 5
encodes to [4,5,6,7,8], dropping the 9. -/
theorem encode_truncates_post_witness :
    5 < ([4, 5, 6, 7, 8, 9] : List Nat).length ∧
    pad_sequences [4, 5, 6, 7, 8, 9] 5 = [4, 5, 6, 7, 8] :=
  ⟨by decide, (encode_truncates_post [4, 5, 6, 7, 8, 9] 5 (by decide)).trans
    (by decide)⟩

/-- Claim C5: a sequence no longer than the configured length encodes to
itself followed by `L - len(s)` zeros appended at the end (so a length-`L`
input is unchanged and the empty sequence becomes all zeros). -/
theorem encode_pads_post (s : List Nat) (L : Nat) (h : s.length ≤ L) :
    pad_sequences s L = s ++ List.replicate (L - s.length) 0 := by
  unfold pad_sequences
  rw [if_neg (by omega)]

/-- Witness for C5: the end-to-end scenario [4,5] with max_len 5 encodes to
[4,5,0,0,0]. -/
theorem encode_pads_post_witness :
    ([4, 5] : List Nat).length ≤ 5 ∧
    pad_sequences [4, 5] 5 = [4, 5, 0, 0, 0] :=
  ⟨by decide, (encode_pads_post [4, 5] 5 (by decide)).trans (by decide)⟩

/-- Claim C6: starting from the run's initial learning rate 0.001, no matter
what validation-loss sequence the run observes, after every epoch of the
learning-rate controller the learning rate is at least the floor 0.0001. -/
theorem lr_never_below_floor (losses : List ℚ) (st : PlateauState)
    (h : st ∈ runStates lr_scheduler initPlateau losses) :
    lr_scheduler.min_lr ≤ st.lr ∧ (1 : ℚ)/10000 ≤ st.lr := by
  have hfloor : lr_scheduler.min_lr ≤ initPlateau.lr := by
    norm_num [lr_scheduler, initPlateau]
  have := runStates_lr_floor lr_scheduler losses initPlateau hfloor st h
  exact ⟨this, this⟩

/-- Witness for C6: a concrete two-epoch non-improving run keeps the learning
rate at or above the floor. -/
theorem lr_never_below_floor_witness :
    plateauStep lr_scheduler initPlateau (1/2) ∈
      runStates lr_scheduler initPlateau [1/2] ∧
    (lr_scheduler.min_lr ≤ (plateauStep lr_scheduler initPlateau (1/2)).lr ∧
      (1 : ℚ)/10000 ≤ (plateauStep lr_scheduler initPlateau (1/2)).lr) :=
  ⟨by simp [runStates], lr_never_below_floor [1/2] _ (by simp [runStates])⟩

/-- Claim C7: the training loop runs exactly the fixed budget of 15 epochs,
whatever stopping condition one might imagine, because the only callback wired
into `model.fit` is the learning-rate scheduler — no early stopping is present. -/
theorem training_runs_full_budget (stop : Nat → Bool) :
    epochsRun stop = 15 ∧
    callbacks = [KerasCallback.reduceLROnPlateau] ∧
    KerasCallback.earlyStopping ∉ callbacks := by
  refine ⟨?_, rfl, by decide⟩
  unfold epochsRun
  rw [fitLoop_no_early_stop]
  decide

/-- Claim C8: if reloading the just-saved checkpoint yields a model `m2`, then
`m2` is the trained model itself — so any prediction function applied to a
fixed probe input gives identical results on the saved and reloaded model —
and `m2` is exactly the model handed to the cross-format (TF.js) export. -/
theorem save_load_roundtrip {α : Type} (m m2 : α) (predict : α → ℚ)
    (h : reloadedModel m = some m2) :
    m2 = m ∧ predict m2 = predict m ∧ tfjsExportInput m = some m2 := by
  have hm : reloadedModel m = some m := by
    simp [reloadedModel, load_model, model_save, List.find?]
  rw [hm] at h
  have : m = m2 := Option.some.inj h
  subst this
  exact ⟨rfl, rfl, hm⟩

/-- Witness for C8: the round trip at a concrete model value. -/
theorem save_load_roundtrip_witness :
    reloadedModel (7 : Nat) = some 7 ∧
    ((7 : Nat) = 7 ∧ (fun _ : Nat => (0 : ℚ)) 7 = (fun _ : Nat => (0 : ℚ)) 7 ∧
      tfjsExportInput (7 : Nat) = some 7) :=
  ⟨by decide, save_load_roundtrip 7 7 (fun _ => (0 : ℚ)) (by decide)⟩

/-- Claim C9: the encoder is idempotent — encoding an already encoded sequence
changes nothing, for every sequence and every configured length. -/
theorem encode_idempotent (s : List Nat) (L : Nat) :
    pad_sequences (pad_sequences s L) L = pad_sequences s L := by
  have ht : (pad_sequences s L).length = L := pad_sequences_length s L
  set t := pad_sequences s L with hdef
  show pad_sequences t L = t
  unfold pad_sequences
  rw [ht]
  simp

/-- Claim C10: the five persistence steps run in the fixed source order —
checkpoint save, checkpoint reload, TF.js conversion, vocab.json write,
metadata.json write — and a failing step aborts the script; hence if the
metadata.json write completed, every step completed, none failed, and the
completed steps are exactly the five steps in that order. -/
theorem metadata_implies_all_steps (fails : ExportStep → Bool)
    (h : ExportStep.writeMetadata ∈ completedSteps fails) :
    completedSteps fails = exportOrder ∧
    ∀ s ∈ exportOrder, fails s = false := by
  cases h1 : fails ExportStep.saveCheckpoint <;>
    cases h2 : fails ExportStep.reloadCheckpoint <;>
      cases h3 : fails ExportStep.convertTfjs <;>
        cases h4 : fails ExportStep.writeVocab <;>
          cases h5 : fails ExportStep.writeMetadata <;>
            simp_all [completedSteps, runExport, exportOrder]

/-- Witness for C10: a run where no step fails completes all five steps in
order. -/
theorem metadata_implies_all_steps_witness :
    ExportStep.writeMetadata ∈ completedSteps (fun _ => false) ∧
    (completedSteps (fun _ => false) = exportOrder ∧
      ∀ s ∈ exportOrder, (fun _ : ExportStep => false) s = false) :=
  ⟨by decide, metadata_implies_all_steps (fun _ => false) (by decide)⟩

end SentimentAnalysis
